import Mathlib

/-
Shallow embedding of the jsonresume-theme-bluetime renderer (src/index.ts)
and proofs about it.

Strings are modelled with Lean `String`; JavaScript string truthiness
(`if (s)` being false for `undefined` and for the empty string) is made
explicit through `jsTruthyS` / `jsTruthy`.  Optional fields of the JSON
Resume input are `Option`-typed.  The one fallible host primitive used by
the source (`new URL(...)`, which throws on strings that do not parse) is
modelled separately (`newURL`) and an `Except`-threaded variant of the
renderer (`renderE`) makes the exception flow explicit; the pure `render`
corresponds to the source with the `try/catch` folded in.
-/

-- ============================================================================
-- DATA MODEL (the slice of the JSON Resume schema read by src/index.ts;
-- fields the renderer never reads, such as awards/certificates/publications,
-- are not modelled)
-- ============================================================================

/-- Profile entry of `basics.profiles[]` as read by `addContactInfo`. -/
structure ProfileEntry where
  network : Option String := none
  url : Option String := none

/-- Location record of `basics.location` as read by `addLocation`. -/
structure Location where
  address : Option String := none
  city : Option String := none
  region : Option String := none
  postalCode : Option String := none
  countryCode : Option String := none

/-- Record `basics` as destructured in `createBasicsSection`. -/
structure Basics where
  name : Option String := none
  label : Option String := none
  image : Option String := none
  email : Option String := none
  phone : Option String := none
  url : Option String := none
  location : Option Location := none
  profiles : Option (List ProfileEntry) := none
  summary : Option String := none

/-- Entry of `work[]` as destructured in `createExperienceSection`. -/
structure WorkEntry where
  name : Option String := none
  description : Option String := none
  location : Option String := none
  url : Option String := none
  position : Option String := none
  summary : Option String := none
  highlights : Option (List String) := none
  startDate : Option String := none
  endDate : Option String := none

/-- Entry of `projects[]` as destructured in `createProjectsSection`. -/
structure ProjectEntry where
  name : Option String := none
  url : Option String := none
  description : Option String := none
  highlights : Option (List String) := none
  keywords : Option (List String) := none
  startDate : Option String := none
  endDate : Option String := none

/-- Entry of `volunteer[]` as destructured in `createVolunteerSection`. -/
structure VolunteerEntry where
  organization : Option String := none
  url : Option String := none
  position : Option String := none
  summary : Option String := none
  highlights : Option (List String) := none
  startDate : Option String := none
  endDate : Option String := none

/-- Entry of `education[]` as destructured in `createEducationSection`. -/
structure EducationEntry where
  institution : Option String := none
  url : Option String := none
  area : Option String := none
  studyType : Option String := none
  courses : Option (List String) := none
  startDate : Option String := none
  endDate : Option String := none

/-- Entry of `languages[]`.  The source destructures the field `language`
under the local name `lang`. -/
structure LanguageEntry where
  language : Option String := none
  fluency : Option String := none

/-- Entry of `skills[]`. -/
structure SkillEntry where
  name : Option String := none
  level : Option String := none
  keywords : Option (List String) := none

/-- Entry of `interests[]`. -/
structure InterestEntry where
  name : Option String := none
  keywords : Option (List String) := none

/-- Entry of `references[]`. -/
structure ReferenceEntry where
  name : Option String := none
  reference : Option String := none

/-- The top-level resume record: every field the renderer reads, all
independently optional. -/
structure JSONResumeSchema where
  basics : Option Basics := none
  work : Option (List WorkEntry) := none
  volunteer : Option (List VolunteerEntry) := none
  education : Option (List EducationEntry) := none
  skills : Option (List SkillEntry) := none
  languages : Option (List LanguageEntry) := none
  interests : Option (List InterestEntry) := none
  references : Option (List ReferenceEntry) := none
  projects : Option (List ProjectEntry) := none

-- ============================================================================
-- JAVASCRIPT TRUTHINESS
-- ============================================================================

/-- Truthiness of a JavaScript string: `""` is falsy, every other string is
truthy. -/
def jsTruthyS (s : String) : Bool := !s.data.isEmpty

/-- Truthiness of an optional JavaScript string: `undefined` and `""` are
falsy. -/
def jsTruthy (s : Option String) : Bool :=
  match s with
  | none => false
  | some t => jsTruthyS t

-- ============================================================================
-- HTML UTILITIES (namespace HTMLUtils, src/index.ts lines 7-68)
-- ============================================================================

namespace HTMLUtils

/-- Replaces every occurrence of the character `c` in a character list by the
replacement list `r`; this is `String.prototype.replace` with a global
single-character pattern, the building block of `escapeHtml`. -/
def repl (c : Char) (r : List Char) : List Char → List Char
  | [] => []
  | a :: as => if a = c then r ++ repl c r as else a :: repl c r as

/-- Embeds `HTMLUtils.escapeHtml` (lines 13-20): the five chained
`.replace` calls, `&` first, then `<`, `>`, `"` and the apostrophe
(`Char.ofNat 39`, whose entity is `&#39;`; `Char.ofNat 34` is `"`). -/
def escapeHtml (text : String) : String :=
  String.mk (repl (Char.ofNat 39) "&#39;".data
    (repl (Char.ofNat 34) "&quot;".data
      (repl (Char.ofNat 62) "&gt;".data
        (repl (Char.ofNat 60) "&lt;".data
          (repl (Char.ofNat 38) "&amp;".data text.data)))))

/-- Embeds `HTMLUtils.safeText` (lines 27-29): `text ? escapeHtml(text) : ""`. -/
def safeText (text : Option String) : String :=
  if jsTruthy text then escapeHtml (text.getD "") else ""

/-- Embeds `HTMLUtils.createElement` (lines 40-53).  The `className` is
dropped when falsy (empty); attribute keys and values are escaped by the
builder; `textContent` is inserted verbatim. -/
def createElement (tagName : String) (className : String) (textContent : String)
    (attributes : List (String × String)) : String :=
  let element := "<" ++ tagName
  let element :=
    if jsTruthyS className then element ++ " class=\"" ++ escapeHtml className ++ "\""
    else element
  let element := attributes.foldl
    (fun el kv => el ++ " " ++ escapeHtml kv.1 ++ "=\"" ++ escapeHtml kv.2 ++ "\"") element
  element ++ ">" ++ textContent ++ "</" ++ tagName ++ ">"

/-- Embeds `HTMLUtils.createSection` (lines 61-67): opens a section `div`
and, when a title is given, adds an `h2` heading (the closing `</div>` is
appended by each caller). -/
def createSection (title : Option String) : String :=
  let sectionDiv := "<div class=\"section\">"
  if jsTruthy title then sectionDiv ++ createElement "h2" "" (safeText title) []
  else sectionDiv

end HTMLUtils

-- ============================================================================
-- CONTENT UTILITIES (namespace ContentUtils, src/index.ts lines 74-192)
-- ============================================================================

namespace ContentUtils

/-- Models `String.prototype.toLowerCase` characterwise (faithful on the
ASCII range; `Char.toLower` maps `A`-`Z` to `a`-`z` and leaves other
characters unchanged). -/
def toLowerStr (s : String) : String := String.mk (s.data.map Char.toLower)

/-- Case-insensitive anchored match: when the string starts with the
(lower-case) pattern, returns the remainder. -/
def caselessLead (pat : List Char) (s : List Char) : Option (List Char) :=
  match pat, s with
  | [], rest => some rest
  | _ :: _, [] => none
  | p :: ps, c :: cs => if c.toLower = p then caselessLead ps cs else none

/-- Models `url.replace(/^https?:\/\//i, "")`: strips one leading
case-insensitive `http://` or `https://`, leaving other strings unchanged
(the two patterns cannot match the same string, so trying `https://` first
is equivalent to the regex). -/
def stripScheme (s : String) : String :=
  match caselessLead "https://".data s.data with
  | some rest => String.mk rest
  | none =>
    match caselessLead "http://".data s.data with
    | some rest => String.mk rest
    | none => s

/-- The contribution of one profile entry to the contact block: the body of
the loop of lines 112-120, as a function of the entry (a skipped entry
contributes the empty string). -/
def contactProfileItem (profile : ProfileEntry) : String :=
  if jsTruthy profile.network && jsTruthy profile.url then
    HTMLUtils.createElement "span" "contact-item"
      ("<i class=\"fa-brands fa-"
        ++ HTMLUtils.escapeHtml (toLowerStr (profile.network.getD ""))
        ++ "\"></i> "
        ++ HTMLUtils.createElement "a" ""
            (HTMLUtils.safeText (some (stripScheme (profile.url.getD ""))))
            [("href", profile.url.getD "")])
      []
  else ""

/-- Embeds `ContentUtils.addContactInfo` (lines 84-123). -/
def addContactInfo (email phone url : Option String)
    (profiles : List ProfileEntry) : String :=
  let contactInfo := "<div class=\"contact-info\">"
  let contactInfo :=
    if jsTruthy email then
      contactInfo ++ HTMLUtils.createElement "span" "contact-item"
        ("<i class=\"fas fa-envelope\"></i> "
          ++ HTMLUtils.createElement "a" "" (HTMLUtils.safeText email)
              [("href", "mailto:" ++ email.getD "")])
        []
    else contactInfo
  let contactInfo :=
    if jsTruthy phone then
      contactInfo ++ HTMLUtils.createElement "span" "contact-item"
        ("<i class=\"fas fa-phone\"></i> "
          ++ HTMLUtils.createElement "a" "" (HTMLUtils.safeText phone)
              [("href", "tel:" ++ phone.getD "")])
        []
    else contactInfo
  let contactInfo :=
    if jsTruthy url then
      contactInfo ++ HTMLUtils.createElement "span" "contact-item"
        ("<i class=\"fas fa-globe\"></i> "
          ++ HTMLUtils.createElement "a" ""
              (HTMLUtils.safeText (some (stripScheme (url.getD ""))))
              [("href", url.getD "")])
        []
    else contactInfo
  let contactInfo := profiles.foldl
    (fun acc profile => acc ++ contactProfileItem profile) contactInfo
  contactInfo ++ "</div>"

/-- Embeds `ContentUtils.addLocation` (lines 131-152): the present parts, in
the fixed order address, city, region, postalCode, countryCode, joined by
`", "` inside a `location` div that is always emitted. -/
def addLocation (location : Location) : String :=
  let locationParts : List String :=
    (if jsTruthy location.address then [HTMLUtils.safeText location.address] else [])
    ++ (if jsTruthy location.city then [HTMLUtils.safeText location.city] else [])
    ++ (if jsTruthy location.region then [HTMLUtils.safeText location.region] else [])
    ++ (if jsTruthy location.postalCode then [HTMLUtils.safeText location.postalCode] else [])
    ++ (if jsTruthy location.countryCode then [HTMLUtils.safeText location.countryCode] else [])
  "<div class=\"location\">" ++ String.intercalate ", " locationParts ++ "</div>"

/-- Embeds `ContentUtils.addChips` (lines 160-171). -/
def addChips (keywords : List String) : String :=
  let keywordChips := "<div class=\"chips\">"
  let keywordChips := keywords.foldl
    (fun acc keyword =>
      acc ++ HTMLUtils.createElement "span" "chip" (HTMLUtils.safeText (some keyword)) [])
    keywordChips
  keywordChips ++ "</div>"

/-- Embeds `ContentUtils.addHighlights` (lines 179-191): self-omits (returns
`""`) when the sequence is absent or empty. -/
def addHighlights (highlights : Option (List String)) : String :=
  match highlights with
  | none => ""
  | some hs =>
    if hs.length = 0 then ""
    else
      let highlightList := "<ul class=\"highlights\">"
      let highlightList := hs.foldl
        (fun acc highlight =>
          acc ++ HTMLUtils.createElement "li" "" (HTMLUtils.safeText (some highlight)) [])
        highlightList
      highlightList ++ "</ul>"

end ContentUtils

-- ============================================================================
-- URL PARSING (host primitive, not part of src)
-- ============================================================================

/-- Modelled from the spec: the host `new URL(...)` validity check, absent
from src.  Per the spec the check "must accept the same absolute-URL
grammar as a standard URL parser (scheme + authority)": a scheme (a letter
followed by letters, digits, `+`, `-`, `.`), then `://`, then a non-empty
remainder. -/
def parsesAsURL (s : String) : Bool :=
  match s.data.takeWhile (fun c => c.isAlphanum || c = '+' || c = '-' || c = '.'),
        s.data.dropWhile (fun c => c.isAlphanum || c = '+' || c = '-' || c = '.') with
  | c :: _, ':' :: '/' :: '/' :: rest => c.isAlpha && !rest.isEmpty
  | _, _ => false

/-- Modelled from the spec: the host `new URL` constructor, which throws a
`TypeError` on a string that does not parse as a URL and otherwise
succeeds. -/
def newURL (s : String) : Except String Unit :=
  if parsesAsURL s then Except.ok () else Except.error "TypeError: Invalid URL"

/-- Explicit `try/catch`: runs the body and, on an exception, the handler. -/
def tryCatchE {ε α : Type} (body : Except ε α) (handler : ε → Except ε α) : Except ε α :=
  match body with
  | Except.ok a => Except.ok a
  | Except.error e => handler e

-- ============================================================================
-- STYLES CONSTANT (src/index.ts lines 198-374; the CSS braces and single
-- quotes are written with hex escapes)
-- ============================================================================

/-- Embeds the `THEME_STYLES` template literal. -/
def THEME_STYLES : String :=
  "\n<style>\n  @import url(\x27https://fonts.googleapis.com/css2?family=Lato:ital,wght@0,100;0,300;0,400;0,700;0,900;1,100;1,300;1,400;1,700;1,900&display=swap\x27);\n  @import url(\x27https://cdnjs.cloudflare.com/ajax/libs/font-awesome/7.0.0/css/all.min.css\x27);\n\n  .resume-container \x7b\n    display: flex;\n    padding: 20px;\n    max-width: 1600px;\n    margin: auto;\n    font-family: \"Lato\", sans-serif;\n    font-size: 14px;\n\n    h1, h2, h3, h4 \x7b\n      margin-top: 0;\n      margin-bottom: 10px;\n    \x7d\n\n    p \x7b\n      margin: 5px 0 0 0;\n    \x7d\n\n    .left-column \x7b\n      flex: 1;\n      padding: 10px;\n      background-color: #f4f4f9;\n      border-radius: 12px;\n    \x7d\n\n    .right-column \x7b\n      flex: 2;\n      padding: 10px 10px 10px 0;\n    \x7d\n\n    .section \x7b\n      position: relative;\n      margin: 10px;\n      break-inside: avoid;\n\n      .section-item \x7b\n        margin: 5px;\n        break-inside: avoid;\n\n        h3 \x7b\n          display: inline-block;\n          margin-right: 10px;\n        \x7d\n\n        h4 \x7b\n          display: inline-block;\n          color: #666;\n        \x7d\n      \x7d\n\n      .timeline-section-item \x7b\n        position: relative;\n        display: flex;\n        align-items: flex-start;\n        margin-top: 10px;\n        break-inside: avoid;\n\n        h3 \x7b\n          display: inline-block;\n          margin: 0;\n        \x7d\n\n        h4 \x7b\n          margin: 10px 0;\n        \x7d\n\n        .timeline \x7b\n          position: absolute;\n          width: 65px;\n          text-align: right;\n          font-size: 12px;\n        \x7d\n\n        .timeline::before \x7b\n          content: \"\";\n          position: absolute;\n          left: 70px; /* Adjusted to align with the timeline */\n          top: 5px;\n          width: 16px;\n          height: 16px;\n          background-color: #007BFF;\n          border-radius: 50%;\n        \x7d\n\n        .timeline-section-details \x7b\n          position: relative;\n          margin-left: 92px;\n        \x7d\n\n        .description \x7b\n          color: #666;\n          font-size: 12px;\n          display: inline-block;\n          margin-left: 5px;\n        \x7d\n\n        .title-anex \x7b\n          color: #666;\n          font-size: 12px;\n          margin-top: 5px;\n        \x7d\n      \x7d\n\n      .timeline-section-item::before \x7b\n        content: \"\";\n        position: absolute;\n        left: 75px; /* Adjusted to align with the timeline */\n        top: 30px;\n        width: 6px;\n        height: calc(100% - 30px);\n        background-color: #ccc;\n        border-radius: 3px;\n      \x7d\n\n      .highlights, .courses \x7b\n        padding-left: 15px;\n        margin-top: 5px;\n        margin-bottom: 5px;\n      \x7d\n\n      .highlights li, .courses li \x7b\n        margin-bottom: 5px;\n      \x7d\n\n      .chips \x7b\n        display: flex;\n        flex-wrap: wrap;\n        gap: 5px;\n        margin-bottom: 10px;\n      \x7d\n\n      .chip \x7b\n        background-color: #007BFF;\n        color: white;\n        padding: 4px 8px;\n        border-radius: 20px;\n        font-size: 12px;\n      \x7d\n    \x7d\n\n    .profile-picture \x7b\n      float: left;\n      margin-right: 20px;\n      width: 100px;\n      height: 100px;\n      border-radius: 50%;\n      object-fit: cover;\n    \x7d\n    @media only screen and (max-width: 1000px) \x7b\n      .profile-picture \x7b\n        display: none;\n      \x7d\n    \x7d\n    @media only print \x7b\n      .profile-picture \x7b\n        display: none;\n      \x7d\n    \x7d\n\n    .contact-info \x7b\n      display: flex;\n      flex-wrap: wrap;\n      gap: 10px;\n      margin-top: 10px;\n    \x7d\n\n    .contact-item \x7b\n      text-decoration: none;\n      color: #007BFF;\n    \x7d\n  \x7d\n</style>\n"

-- ============================================================================
-- SECTION CREATORS (namespace SectionCreators, src/index.ts lines 380-1023)
-- ============================================================================

namespace SectionCreators

/-- Embeds `createBasicsSection` (lines 387-437).  The destructuring defaults
`location = {}` and `profiles = []` are `getD`. -/
def createBasicsSection (basics : Option Basics) : String :=
  match basics with
  | none => ""
  | some b =>
    let location := b.location.getD {}
    let profiles := b.profiles.getD []
    let basicsSection := HTMLUtils.createSection none
    let basicsSection :=
      if jsTruthy b.image then
        basicsSection ++ HTMLUtils.createElement "img" "" ""
          [("class", "profile-picture"), ("src", b.image.getD ""), ("alt", "Profile Picture")]
      else basicsSection
    let basicsSection :=
      if jsTruthy b.name then
        basicsSection ++ HTMLUtils.createElement "h1" "resume-name" (HTMLUtils.safeText b.name) []
      else basicsSection
    let basicsSection :=
      if jsTruthy b.label then
        basicsSection ++ HTMLUtils.createElement "h2" "job-title" (HTMLUtils.safeText b.label) []
      else basicsSection
    let basicsSection := basicsSection ++ ContentUtils.addLocation location
    let basicsSection := basicsSection ++ ContentUtils.addContactInfo b.email b.phone b.url profiles
    let basicsSection :=
      if jsTruthy b.summary then
        basicsSection ++ HTMLUtils.createElement "p" "" (HTMLUtils.safeText b.summary) []
      else basicsSection
    basicsSection ++ "</div>"

/-- Item block of one language entry (loop body of lines 452-473). -/
def languageItem (language : LanguageEntry) : String :=
  "<div class=\"section-item\">"
  ++ (if jsTruthy language.language then
        HTMLUtils.createElement "h3" "" (HTMLUtils.safeText language.language) []
      else "")
  ++ (if jsTruthy language.fluency then
        HTMLUtils.createElement "h4" "subtitle" (HTMLUtils.safeText language.fluency) []
      else "")
  ++ "</div>"

/-- Embeds `createLanguagesSection` (lines 445-477). -/
def createLanguagesSection (languages : Option (List LanguageEntry)) : String :=
  match languages with
  | none => ""
  | some langs =>
    if langs.length = 0 then ""
    else
      langs.foldl (fun acc l => acc ++ languageItem l)
        (HTMLUtils.createSection (some "Languages")) ++ "</div>"

/-- Item block of one skill entry (loop body of lines 492-515). -/
def skillItem (skill : SkillEntry) : String :=
  "<div class=\"section-item\">"
  ++ (if jsTruthy skill.name then
        HTMLUtils.createElement "h3" "" (HTMLUtils.safeText skill.name) []
      else "")
  ++ (if jsTruthy skill.level then
        HTMLUtils.createElement "h4" "subtitle" (HTMLUtils.safeText skill.level) []
      else "")
  ++ (match skill.keywords with
      | some ks => if ks.length > 0 then ContentUtils.addChips ks else ""
      | none => "")
  ++ "</div>"

/-- Embeds `createSkillsSection` (lines 485-519). -/
def createSkillsSection (skills : Option (List SkillEntry)) : String :=
  match skills with
  | none => ""
  | some sks =>
    if sks.length = 0 then ""
    else
      sks.foldl (fun acc sk => acc ++ skillItem sk)
        (HTMLUtils.createSection (some "Skills")) ++ "</div>"

/-- Item block of one interest entry (loop body of lines 534-550). -/
def interestItem (interest : InterestEntry) : String :=
  "<div class=\"section-item\">"
  ++ (if jsTruthy interest.name then
        HTMLUtils.createElement "h3" "" (HTMLUtils.safeText interest.name) []
      else "")
  ++ (match interest.keywords with
      | some ks => if ks.length > 0 then ContentUtils.addChips ks else ""
      | none => "")
  ++ "</div>"

/-- Embeds `createInterestsSection` (lines 527-554). -/
def createInterestsSection (interests : Option (List InterestEntry)) : String :=
  match interests with
  | none => ""
  | some ins =>
    if ins.length = 0 then ""
    else
      ins.foldl (fun acc i => acc ++ interestItem i)
        (HTMLUtils.createSection (some "Interests")) ++ "</div>"

/-- Item block of one reference entry (loop body of lines 570-602), with the
`try (new URL) / catch` of lines 583-597 folded into a test of the modelled
parser: a parsing reference renders as an anchor, a non-parsing one as a
plain paragraph. -/
def referenceItem (ref : ReferenceEntry) : String :=
  "<div class=\"section-item\">"
  ++ (if jsTruthy ref.name then
        HTMLUtils.createElement "h3" "" (HTMLUtils.safeText ref.name) []
      else "")
  ++ (if jsTruthy ref.reference then
        (let reference := ref.reference.getD ""
         if parsesAsURL reference then
           HTMLUtils.createElement "a" "reference-link"
             (HTMLUtils.safeText (some (ContentUtils.stripScheme reference)))
             [("href", reference)]
         else
           HTMLUtils.createElement "p" "" (HTMLUtils.safeText (some reference)) [])
      else "")
  ++ "</div>"

/-- Embeds `createReferencesSection` (lines 562-606). -/
def createReferencesSection (references : Option (List ReferenceEntry)) : String :=
  match references with
  | none => ""
  | some refs =>
    if refs.length = 0 then ""
    else
      refs.foldl (fun acc ref => acc ++ referenceItem ref)
        ("<div class=\"section references\">" ++ HTMLUtils.createElement "h2" "" "References" [])
        ++ "</div>"

/-- Embeds the timeline date block repeated verbatim in the four timeline
sections (lines 636-657, 750-771, 854-875 and 941-962): nothing when both
dates are falsy; otherwise the end marker first (`Present` when `endDate`
is falsy), then, when `startDate` is truthy, a line break and the start
marker. -/
def timelineBlock (startDate endDate : Option String) : String :=
  if jsTruthy startDate || jsTruthy endDate then
    let timeline := "<div class=\"timeline\">"
    let timeline :=
      if jsTruthy endDate then
        timeline ++ HTMLUtils.createElement "span" "date" (HTMLUtils.safeText endDate) []
      else
        timeline ++ HTMLUtils.createElement "span" "date" "Present" []
    let timeline :=
      if jsTruthy startDate then
        timeline ++ " <br> " ++ HTMLUtils.createElement "span" "date" (HTMLUtils.safeText startDate) []
      else timeline
    timeline ++ "</div>"
  else ""

/-- Details block of one work entry (lines 659-716). -/
def workItemDetails (experience : WorkEntry) : String :=
  "<div class=\"timeline-section-details\">"
  ++ (if jsTruthy experience.name then
        HTMLUtils.createElement "h3" "" (HTMLUtils.safeText experience.name) []
      else "")
  ++ (if jsTruthy experience.description then
        HTMLUtils.createElement "span" "description" (HTMLUtils.safeText experience.description) []
      else "")
  ++ (if jsTruthy experience.location || jsTruthy experience.url then
        "<div class=\"title-anex\">"
        ++ (if jsTruthy experience.location then
              HTMLUtils.createElement "span" "" (HTMLUtils.safeText experience.location) []
            else "")
        ++ (if jsTruthy experience.url then
              " &bull; " ++ HTMLUtils.createElement "a" "url"
                (HTMLUtils.safeText (some (ContentUtils.stripScheme (experience.url.getD ""))))
                [("href", experience.url.getD "")]
            else "")
        ++ "</div>"
      else "")
  ++ (if jsTruthy experience.position then
        HTMLUtils.createElement "h4" "subtitle" (HTMLUtils.safeText experience.position) []
      else "")
  ++ (if jsTruthy experience.summary then
        HTMLUtils.createElement "p" "" (HTMLUtils.safeText experience.summary) []
      else "")
  ++ (match experience.highlights with
      | some hs => if hs.length > 0 then ContentUtils.addHighlights (some hs) else ""
      | none => "")
  ++ "</div>" ++ "</div>"

/-- Item row of one work entry (loop body of lines 621-718): the timeline
date block, then the details block. -/
def workItem (experience : WorkEntry) : String :=
  "<div class=\"timeline-section-item\">"
  ++ timelineBlock experience.startDate experience.endDate
  ++ workItemDetails experience

/-- Embeds `createExperienceSection` (lines 614-722). -/
def createExperienceSection (experiences : Option (List WorkEntry)) : String :=
  match experiences with
  | none => ""
  | some exps =>
    if exps.length = 0 then ""
    else
      exps.foldl (fun acc e => acc ++ workItem e)
        (HTMLUtils.createSection (some "Experience")) ++ "</div>"

/-- Details block of one project entry (lines 773-820); the highlight list
is written out inline in the source (lines 802-813) rather than through
`addHighlights`. -/
def projectItemDetails (project : ProjectEntry) : String :=
  "<div class=\"timeline-section-details\">"
  ++ (if jsTruthy project.name then
        HTMLUtils.createElement "h3" "" (HTMLUtils.safeText project.name) []
      else "")
  ++ (if jsTruthy project.url then
        " &bull; " ++ HTMLUtils.createElement "a" "description"
          (HTMLUtils.safeText (some (ContentUtils.stripScheme (project.url.getD ""))))
          [("href", project.url.getD "")]
      else "")
  ++ (if jsTruthy project.description then
        HTMLUtils.createElement "p" "" (HTMLUtils.safeText project.description) []
      else "")
  ++ (match project.highlights with
      | some hs =>
        if hs.length > 0 then
          hs.foldl (fun acc h =>
              acc ++ HTMLUtils.createElement "li" "" (HTMLUtils.safeText (some h)) [])
            "<ul class=\"highlights\">" ++ "</ul>"
        else ""
      | none => "")
  ++ (match project.keywords with
      | some ks => if ks.length > 0 then ContentUtils.addChips ks else ""
      | none => "")
  ++ "</div>" ++ "</div>"

/-- Item row of one project entry (loop body of lines 738-822). -/
def projectItem (project : ProjectEntry) : String :=
  "<div class=\"timeline-section-item\">"
  ++ timelineBlock project.startDate project.endDate
  ++ projectItemDetails project

/-- Embeds `createProjectsSection` (lines 730-826). -/
def createProjectsSection (projects : Option (List ProjectEntry)) : String :=
  match projects with
  | none => ""
  | some ps =>
    if ps.length = 0 then ""
    else
      ps.foldl (fun acc p => acc ++ projectItem p)
        ("<div class=\"section\">" ++ HTMLUtils.createElement "h2" "" "Projects" [])
        ++ "</div>"

/-- Details block of one volunteer entry (lines 877-914). -/
def volunteerItemDetails (vol : VolunteerEntry) : String :=
  "<div class=\"timeline-section-details\">"
  ++ (if jsTruthy vol.organization then
        HTMLUtils.createElement "h3" "" (HTMLUtils.safeText vol.organization) []
      else "")
  ++ (if jsTruthy vol.url then
        HTMLUtils.createElement "a" "description"
          (HTMLUtils.safeText (some (ContentUtils.stripScheme (vol.url.getD ""))))
          [("href", vol.url.getD "")]
      else "")
  ++ (if jsTruthy vol.position then
        HTMLUtils.createElement "div" "title-anex" (HTMLUtils.safeText vol.position) []
      else "")
  ++ (if jsTruthy vol.summary then
        HTMLUtils.createElement "p" "" (HTMLUtils.safeText vol.summary) []
      else "")
  ++ (match vol.highlights with
      | some hs => if hs.length > 0 then ContentUtils.addHighlights (some hs) else ""
      | none => "")
  ++ "</div>" ++ "</div>"

/-- Item row of one volunteer entry (loop body of lines 841-916). -/
def volunteerItem (vol : VolunteerEntry) : String :=
  "<div class=\"timeline-section-item\">"
  ++ timelineBlock vol.startDate vol.endDate
  ++ volunteerItemDetails vol

/-- Embeds `createVolunteerSection` (lines 834-920). -/
def createVolunteerSection (volunteer : Option (List VolunteerEntry)) : String :=
  match volunteer with
  | none => ""
  | some vols =>
    if vols.length = 0 then ""
    else
      vols.foldl (fun acc v => acc ++ volunteerItem v)
        (HTMLUtils.createSection (some "Volunteer")) ++ "</div>"

/-- Details block of one education entry (lines 964-1016); the course list
is written out inline in the source (lines 1002-1013). -/
def educationItemDetails (edu : EducationEntry) : String :=
  "<div class=\"timeline-section-details\">"
  ++ (if jsTruthy edu.institution then
        HTMLUtils.createElement "h3" "" (HTMLUtils.safeText edu.institution) []
      else "")
  ++ (if jsTruthy edu.url then
        HTMLUtils.createElement "a" "description"
          (HTMLUtils.safeText (some (ContentUtils.stripScheme (edu.url.getD ""))))
          [("href", edu.url.getD "")]
      else "")
  ++ (if jsTruthy edu.area || jsTruthy edu.studyType then
        "<div class=\"title-anex\">"
        ++ (if jsTruthy edu.area then
              HTMLUtils.createElement "span" "" (HTMLUtils.safeText edu.area) []
            else "")
        ++ (if jsTruthy edu.studyType then
              HTMLUtils.createElement "span" "description" (HTMLUtils.safeText edu.studyType) []
            else "")
        ++ "</div>"
      else "")
  ++ (match edu.courses with
      | some cs =>
        if cs.length > 0 then
          cs.foldl (fun acc c =>
              acc ++ HTMLUtils.createElement "li" "" (HTMLUtils.safeText (some c)) [])
            "<ul class=\"courses\">" ++ "</ul>"
        else ""
      | none => "")
  ++ "</div>" ++ "</div>"

/-- Item row of one education entry (loop body of lines 935-1018). -/
def educationItem (edu : EducationEntry) : String :=
  "<div class=\"timeline-section-item\">"
  ++ timelineBlock edu.startDate edu.endDate
  ++ educationItemDetails edu

/-- Embeds `createEducationSection` (lines 928-1022). -/
def createEducationSection (education : Option (List EducationEntry)) : String :=
  match education with
  | none => ""
  | some edus =>
    if edus.length = 0 then ""
    else
      edus.foldl (fun acc e => acc ++ educationItem e)
        (HTMLUtils.createSection (some "Education")) ++ "</div>"

end SectionCreators

-- ============================================================================
-- MAIN RENDER FUNCTION (src/index.ts lines 1032-1106)
-- ============================================================================

/-- Embeds `createLeftColumn` (lines 1032-1057). -/
def createLeftColumn (data : JSONResumeSchema) : String :=
  let leftColumn := "<div class=\"left-column\">"
  let leftColumn :=
    if data.basics.isSome then
      leftColumn ++ SectionCreators.createBasicsSection data.basics
    else leftColumn
  let leftColumn :=
    if data.languages.isSome then
      leftColumn ++ SectionCreators.createLanguagesSection data.languages
    else leftColumn
  let leftColumn :=
    if data.skills.isSome then
      leftColumn ++ SectionCreators.createSkillsSection data.skills
    else leftColumn
  let leftColumn :=
    if data.interests.isSome then
      leftColumn ++ SectionCreators.createInterestsSection data.interests
    else leftColumn
  let leftColumn :=
    if data.references.isSome then
      leftColumn ++ SectionCreators.createReferencesSection data.references
    else leftColumn
  leftColumn ++ "</div>"

/-- Embeds `createRightColumn` (lines 1062-1083). -/
def createRightColumn (data : JSONResumeSchema) : String :=
  let rightColumn := "<div class=\"right-column\">"
  let rightColumn :=
    if data.work.isSome then
      rightColumn ++ SectionCreators.createExperienceSection data.work
    else rightColumn
  let rightColumn :=
    if data.projects.isSome then
      rightColumn ++ SectionCreators.createProjectsSection data.projects
    else rightColumn
  let rightColumn :=
    if data.volunteer.isSome then
      rightColumn ++ SectionCreators.createVolunteerSection data.volunteer
    else rightColumn
  let rightColumn :=
    if data.education.isSome then
      rightColumn ++ SectionCreators.createEducationSection data.education
    else rightColumn
  rightColumn ++ "</div>"

/-- Embeds `render` (lines 1091-1106). -/
def render (data : JSONResumeSchema) : String :=
  "<div class=\"resume-container\">" ++ THEME_STYLES
  ++ createLeftColumn data ++ createRightColumn data ++ "</div>"

-- ============================================================================
-- EXCEPTION-EXPLICIT VARIANT OF THE RENDERER
-- ============================================================================

/-- The reference item with the host exception made explicit: the body of
the `try` of lines 583-590 runs `newURL` and builds the anchor, the
handler of lines 591-597 builds the paragraph. -/
def referenceItemE (ref : ReferenceEntry) : Except String String := do
  let reference := ref.reference.getD ""
  let body ←
    if jsTruthy ref.reference then
      tryCatchE
        (do
          let _ ← newURL reference
          pure (HTMLUtils.createElement "a" "reference-link"
            (HTMLUtils.safeText (some (ContentUtils.stripScheme reference)))
            [("href", reference)]))
        (fun _ =>
          pure (HTMLUtils.createElement "p" "" (HTMLUtils.safeText (some reference)) []))
    else pure ""
  pure ("<div class=\"section-item\">"
    ++ (if jsTruthy ref.name then
          HTMLUtils.createElement "h3" "" (HTMLUtils.safeText ref.name) []
        else "")
    ++ body
    ++ "</div>")

/-- `createReferencesSection` with the host exception made explicit. -/
def createReferencesSectionE (references : Option (List ReferenceEntry)) :
    Except String String :=
  match references with
  | none => pure ""
  | some refs =>
    if refs.length = 0 then pure ""
    else do
      let items ← refs.foldlM
        (fun acc ref => do
          let item ← referenceItemE ref
          pure (acc ++ item))
        ("<div class=\"section references\">" ++ HTMLUtils.createElement "h2" "" "References" [])
      pure (items ++ "</div>")

/-- `createLeftColumn` with the host exception made explicit (the references
section is the only fragment that runs fallible code). -/
def createLeftColumnE (data : JSONResumeSchema) : Except String String := do
  let leftColumn := "<div class=\"left-column\">"
  let leftColumn :=
    if data.basics.isSome then
      leftColumn ++ SectionCreators.createBasicsSection data.basics
    else leftColumn
  let leftColumn :=
    if data.languages.isSome then
      leftColumn ++ SectionCreators.createLanguagesSection data.languages
    else leftColumn
  let leftColumn :=
    if data.skills.isSome then
      leftColumn ++ SectionCreators.createSkillsSection data.skills
    else leftColumn
  let leftColumn :=
    if data.interests.isSome then
      leftColumn ++ SectionCreators.createInterestsSection data.interests
    else leftColumn
  let leftColumn ←
    if data.references.isSome then do
      let s ← createReferencesSectionE data.references
      pure (leftColumn ++ s)
    else pure leftColumn
  pure (leftColumn ++ "</div>")

/-- `render` with the host exception made explicit: an `Except.error` result
would mean an uncaught exception reaching the caller. -/
def renderE (data : JSONResumeSchema) : Except String String := do
  let left ← createLeftColumnE data
  pure ("<div class=\"resume-container\">" ++ THEME_STYLES
    ++ left ++ createRightColumn data ++ "</div>")

-- ============================================================================
-- SPEC-SIDE DEFINITIONS (for refinement statements)
-- ============================================================================

/-- Follows the spec's words for the escaper contract: the five HTML
metacharacters map to their entities, every other character is unchanged.
`escapeHtml` is compared against the characterwise application of this
map. -/
def escapeCharSpec (c : Char) : String :=
  if c = Char.ofNat 38 then "&amp;"
  else if c = Char.ofNat 60 then "&lt;"
  else if c = Char.ofNat 62 then "&gt;"
  else if c = Char.ofNat 34 then "&quot;"
  else if c = Char.ofNat 39 then "&#39;"
  else String.singleton c

/-- Decides whether the pattern list is a leading segment of the other
list. -/
def leadsWith : List Char → List Char → Bool
  | [], _ => true
  | _ :: _, [] => false
  | a :: as, b :: bs => a = b && leadsWith as bs

/-- Decides whether the pattern occurs contiguously inside the list. -/
def occursIn (pat : List Char) : List Char → Bool
  | [] => leadsWith pat []
  | s@(_ :: rest) => leadsWith pat s || occursIn pat rest

/-- Substring occurrence on strings, used to state that a fragment appears
in (or is absent from) a rendered output. -/
def containsSub (pat s : String) : Bool := occursIn pat.data s.data

-- ============================================================================
-- STRING INFRASTRUCTURE LEMMAS
-- ============================================================================

theorem strAppend_assoc (a b c : String) : a ++ b ++ c = a ++ (b ++ c) := by
  apply String.ext
  simp [String.data_append, List.append_assoc]

theorem str_append_empty (a : String) : a ++ "" = a := by
  apply String.ext
  simp [String.data_append]

theorem str_empty_append (a : String) : "" ++ a = a := by
  apply String.ext
  simp [String.data_append]

theorem append_ne_empty_right (a b : String) (h : b.data ≠ []) : a ++ b ≠ "" := by
  intro heq
  apply h
  have h2 : (a ++ b).data = ("" : String).data := by rw [heq]
  rw [String.data_append] at h2
  exact (List.append_eq_nil.mp (by simpa using h2)).2

theorem str_join_cons (a : String) (l : List String) :
    String.join (a :: l) = a ++ String.join l := by
  apply String.ext
  simp [String.join_eq, String.data_append]

theorem foldl_append_join {α : Type} (f : α → String) (s : String) (l : List α) :
    l.foldl (fun acc x => acc ++ f x) s = s ++ String.join (l.map f) := by
  induction l generalizing s with
  | nil =>
    apply String.ext
    simp [String.join_eq, String.data_append]
  | cons a as ih =>
    simp only [List.foldl_cons, List.map_cons, ih]
    apply String.ext
    simp [String.join_eq, String.data_append, List.append_assoc]

theorem jsTruthyS_of_ne (s : String) (h : s ≠ "") : jsTruthyS s = true := by
  have hd : s.data ≠ [] := fun hd => h (String.ext hd)
  simpa [jsTruthyS, List.isEmpty_iff] using hd

-- ============================================================================
-- ESCAPER LEMMAS
-- ============================================================================

theorem repl_append (c : Char) (r xs ys : List Char) :
    HTMLUtils.repl c r (xs ++ ys) = HTMLUtils.repl c r xs ++ HTMLUtils.repl c r ys := by
  induction xs with
  | nil => rfl
  | cons a as ih =>
    simp only [List.cons_append, HTMLUtils.repl]
    split
    · simp [ih, List.append_assoc]
    · simp [ih]

theorem escapeHtml_append (s t : String) :
    HTMLUtils.escapeHtml (s ++ t) = HTMLUtils.escapeHtml s ++ HTMLUtils.escapeHtml t := by
  apply String.ext
  simp [HTMLUtils.escapeHtml, String.data_append, repl_append]

theorem escapeHtml_single (a : Char) :
    (HTMLUtils.escapeHtml (String.mk [a])).data = (escapeCharSpec a).data := by
  by_cases h1 : a = Char.ofNat 38
  · subst h1; decide
  · by_cases h2 : a = Char.ofNat 60
    · subst h2; decide
    · by_cases h3 : a = Char.ofNat 62
      · subst h3; decide
      · by_cases h4 : a = Char.ofNat 34
        · subst h4; decide
        · by_cases h5 : a = Char.ofNat 39
          · subst h5; decide
          · simp [HTMLUtils.escapeHtml, HTMLUtils.repl, escapeCharSpec,
              h1, h2, h3, h4, h5, String.singleton]

theorem escapeHtml_eq_flatMap (s : String) :
    HTMLUtils.escapeHtml s = String.mk (s.data.flatMap (fun c => (escapeCharSpec c).data)) := by
  obtain ⟨l⟩ := s
  induction l with
  | nil => rfl
  | cons a as ih =>
    have hsplit : (String.mk (a :: as)) = String.mk [a] ++ String.mk as := by
      apply String.ext
      simp [String.data_append]
    rw [hsplit, escapeHtml_append]
    apply String.ext
    simp only [String.data_append, escapeHtml_single, ih]
    simp [List.flatMap_cons, String.data_append]

theorem escapeHtml_no_raw (s : String) :
    ∀ c ∈ (HTMLUtils.escapeHtml s).data,
      c ≠ Char.ofNat 60 ∧ c ≠ Char.ofNat 62 ∧ c ≠ Char.ofNat 34 ∧ c ≠ Char.ofNat 39 := by
  intro c hc
  rw [escapeHtml_eq_flatMap] at hc
  obtain ⟨a, ha, hfa⟩ := List.mem_flatMap.mp hc
  by_cases h1 : a = Char.ofNat 38
  · subst h1
    have he : escapeCharSpec (Char.ofNat 38) = "&amp;" := by decide
    rw [he] at hfa
    exact (by decide :
      ∀ x ∈ ("&amp;" : String).data,
        x ≠ Char.ofNat 60 ∧ x ≠ Char.ofNat 62 ∧ x ≠ Char.ofNat 34 ∧ x ≠ Char.ofNat 39) c hfa
  · by_cases h2 : a = Char.ofNat 60
    · subst h2
      have he : escapeCharSpec (Char.ofNat 60) = "&lt;" := by decide
      rw [he] at hfa
      exact (by decide :
        ∀ x ∈ ("&lt;" : String).data,
          x ≠ Char.ofNat 60 ∧ x ≠ Char.ofNat 62 ∧ x ≠ Char.ofNat 34 ∧ x ≠ Char.ofNat 39) c hfa
    · by_cases h3 : a = Char.ofNat 62
      · subst h3
        have he : escapeCharSpec (Char.ofNat 62) = "&gt;" := by decide
        rw [he] at hfa
        exact (by decide :
          ∀ x ∈ ("&gt;" : String).data,
            x ≠ Char.ofNat 60 ∧ x ≠ Char.ofNat 62 ∧ x ≠ Char.ofNat 34 ∧ x ≠ Char.ofNat 39) c hfa
      · by_cases h4 : a = Char.ofNat 34
        · subst h4
          have he : escapeCharSpec (Char.ofNat 34) = "&quot;" := by decide
          rw [he] at hfa
          exact (by decide :
            ∀ x ∈ ("&quot;" : String).data,
              x ≠ Char.ofNat 60 ∧ x ≠ Char.ofNat 62 ∧ x ≠ Char.ofNat 34 ∧ x ≠ Char.ofNat 39) c hfa
        · by_cases h5 : a = Char.ofNat 39
          · subst h5
            have he : escapeCharSpec (Char.ofNat 39) = "&#39;" := by decide
            rw [he] at hfa
            exact (by decide :
              ∀ x ∈ ("&#39;" : String).data,
                x ≠ Char.ofNat 60 ∧ x ≠ Char.ofNat 62 ∧ x ≠ Char.ofNat 34 ∧ x ≠ Char.ofNat 39) c hfa
          · have he : escapeCharSpec a = String.singleton a := by
              simp [escapeCharSpec, h1, h2, h3, h4, h5]
            rw [he] at hfa
            have hca : c = a := by simpa [String.singleton] using hfa
            subst hca
            exact ⟨h2, h3, h4, h5⟩

theorem foldl_append_eq_join {α : Type} (g : String → α → String) (f : α → String)
    (hg : ∀ acc x, g acc x = acc ++ f x) (s : String) (l : List α) :
    l.foldl g s = s ++ String.join (l.map f) := by
  have hfun : g = fun acc x => acc ++ f x := funext fun acc => funext fun x => hg acc x
  rw [hfun, foldl_append_join]

-- ============================================================================
-- CLAIM C1
-- ============================================================================

/-- C1: the escaper maps exactly the five HTML metacharacters to their
entities (`&` to `&amp;`, `<` to `&lt;`, `>` to `&gt;`, `"` to `&quot;`,
the apostrophe to `&#39;`) and leaves all other characters unchanged:
`escapeHtml` coincides with the characterwise application of the five-entry
map `escapeCharSpec` (so each character of the input is translated exactly
once — no double-escaping), and no raw `<`, `>`, `"` or apostrophe survives
in the escaped text. -/
theorem C1_escaper_five_metacharacters (s : String) :
    HTMLUtils.escapeHtml s = String.mk (s.data.flatMap (fun c => (escapeCharSpec c).data))
    ∧ escapeCharSpec (Char.ofNat 38) = "&amp;"
    ∧ escapeCharSpec (Char.ofNat 60) = "&lt;"
    ∧ escapeCharSpec (Char.ofNat 62) = "&gt;"
    ∧ escapeCharSpec (Char.ofNat 34) = "&quot;"
    ∧ escapeCharSpec (Char.ofNat 39) = "&#39;"
    ∧ (∀ c : Char, c ≠ Char.ofNat 38 → c ≠ Char.ofNat 60 → c ≠ Char.ofNat 62 →
        c ≠ Char.ofNat 34 → c ≠ Char.ofNat 39 → escapeCharSpec c = String.singleton c)
    ∧ (∀ c ∈ (HTMLUtils.escapeHtml s).data,
        c ≠ Char.ofNat 60 ∧ c ≠ Char.ofNat 62 ∧ c ≠ Char.ofNat 34 ∧ c ≠ Char.ofNat 39) := by
  refine ⟨escapeHtml_eq_flatMap s, by decide, by decide, by decide, by decide, by decide,
    ?_, escapeHtml_no_raw s⟩
  intro c h1 h2 h3 h4 h5
  simp [escapeCharSpec, h1, h2, h3, h4, h5]

/-- Witness for C1 at a concrete input containing all five metacharacters. -/
theorem C1_escaper_five_metacharacters_witness :
    HTMLUtils.escapeHtml "Bob\x27s <b> & \"q\"" = "Bob&#39;s &lt;b&gt; &amp; &quot;q&quot;"
    ∧ escapeCharSpec 'x' = "x" := by
  have h := C1_escaper_five_metacharacters "Bob\x27s <b> & \"q\""
  refine ⟨h.1.trans (by decide), ?_⟩
  exact h.2.2.2.2.2.2.1 'x' (by decide) (by decide) (by decide) (by decide) (by decide)

-- ============================================================================
-- CLAIM C10
-- ============================================================================

/-- Closed form of the attribute fold inside `createElement`. -/
theorem createElement_attrs_fold (s : String) (attributes : List (String × String)) :
    attributes.foldl
      (fun el kv => el ++ " " ++ HTMLUtils.escapeHtml kv.1 ++ "=\"" ++ HTMLUtils.escapeHtml kv.2 ++ "\"") s
    = s ++ String.join (attributes.map
        (fun kv => " " ++ HTMLUtils.escapeHtml kv.1 ++ "=\"" ++ HTMLUtils.escapeHtml kv.2 ++ "\"")) := by
  apply foldl_append_eq_join
  intro acc kv
  simp [strAppend_assoc]

/-- Closed form of `createElement`. -/
theorem createElement_closed (tagName className textContent : String)
    (attributes : List (String × String)) :
    HTMLUtils.createElement tagName className textContent attributes =
      "<" ++ tagName
      ++ (if jsTruthyS className then " class=\"" ++ HTMLUtils.escapeHtml className ++ "\"" else "")
      ++ String.join (attributes.map
          (fun kv => " " ++ HTMLUtils.escapeHtml kv.1 ++ "=\"" ++ HTMLUtils.escapeHtml kv.2 ++ "\""))
      ++ ">" ++ textContent ++ "</" ++ tagName ++ ">" := by
  by_cases h : jsTruthyS className
  · simp only [HTMLUtils.createElement, h, if_true, createElement_attrs_fold]
    simp [strAppend_assoc]
  · simp only [HTMLUtils.createElement, h, if_false, createElement_attrs_fold]
    simp [strAppend_assoc, str_append_empty, str_empty_append]

theorem safeText_some_eq (t : String) : HTMLUtils.safeText (some t) = HTMLUtils.escapeHtml t := by
  by_cases h : t = ""
  · subst h; decide
  · simp [HTMLUtils.safeText, jsTruthy, jsTruthyS_of_ne t h]

-- ============================================================================
-- CLAIM C2
-- ============================================================================

/-- C2 counterexample: a present-but-empty collection does NOT render the
section wrapper and heading with zero item blocks — the renderers return
the empty string for `some []`, exactly as for `none` (neither the
`section` wrapper nor the heading text occurs in the output). -/
theorem C2_counterexample_empty_renders_nothing :
    SectionCreators.createLanguagesSection (some []) = ""
    ∧ SectionCreators.createExperienceSection (some []) = ""
    ∧ SectionCreators.createReferencesSection (some []) = ""
    ∧ containsSub "section" (SectionCreators.createLanguagesSection (some [])) = false
    ∧ containsSub "Languages" (SectionCreators.createLanguagesSection (some [])) = false := by
  decide

theorem listSection_empty_iff {α : Type} (f : Option (List α) → String)
    (h_none : f none = "") (h_nil : f (some []) = "")
    (h_cons : ∀ (x : α) (xs : List α), f (some (x :: xs)) ≠ "") :
    ∀ v, f v = "" ↔ v = none ∨ v = some [] := by
  intro v
  constructor
  · intro h
    match v with
    | none => exact Or.inl rfl
    | some [] => exact Or.inr rfl
    | some (x :: xs) => exact absurd h (h_cons x xs)
  · rintro (rfl | rfl)
    · exact h_none
    · exact h_nil

/-- C2 (amended): every section renderer omits its section entirely — no
wrapper, no heading — exactly when the top-level field is absent OR when it
is a present-but-empty collection; only a non-empty collection produces any
output. -/
theorem C2_section_omitted_iff_absent_or_empty :
    (∀ v, SectionCreators.createLanguagesSection v = "" ↔ v = none ∨ v = some [])
    ∧ (∀ v, SectionCreators.createSkillsSection v = "" ↔ v = none ∨ v = some [])
    ∧ (∀ v, SectionCreators.createInterestsSection v = "" ↔ v = none ∨ v = some [])
    ∧ (∀ v, SectionCreators.createReferencesSection v = "" ↔ v = none ∨ v = some [])
    ∧ (∀ v, SectionCreators.createExperienceSection v = "" ↔ v = none ∨ v = some [])
    ∧ (∀ v, SectionCreators.createProjectsSection v = "" ↔ v = none ∨ v = some [])
    ∧ (∀ v, SectionCreators.createVolunteerSection v = "" ↔ v = none ∨ v = some [])
    ∧ (∀ v, SectionCreators.createEducationSection v = "" ↔ v = none ∨ v = some []) := by
  refine ⟨?_, ?_, ?_, ?_, ?_, ?_, ?_, ?_⟩
  · exact listSection_empty_iff _ rfl (by decide) (fun x xs => by
      simp only [SectionCreators.createLanguagesSection]
      rw [if_neg (by simp)]
      exact append_ne_empty_right _ _ (by decide))
  · exact listSection_empty_iff _ rfl (by decide) (fun x xs => by
      simp only [SectionCreators.createSkillsSection]
      rw [if_neg (by simp)]
      exact append_ne_empty_right _ _ (by decide))
  · exact listSection_empty_iff _ rfl (by decide) (fun x xs => by
      simp only [SectionCreators.createInterestsSection]
      rw [if_neg (by simp)]
      exact append_ne_empty_right _ _ (by decide))
  · exact listSection_empty_iff _ rfl (by decide) (fun x xs => by
      simp only [SectionCreators.createReferencesSection]
      rw [if_neg (by simp)]
      exact append_ne_empty_right _ _ (by decide))
  · exact listSection_empty_iff _ rfl (by decide) (fun x xs => by
      simp only [SectionCreators.createExperienceSection]
      rw [if_neg (by simp)]
      exact append_ne_empty_right _ _ (by decide))
  · exact listSection_empty_iff _ rfl (by decide) (fun x xs => by
      simp only [SectionCreators.createProjectsSection]
      rw [if_neg (by simp)]
      exact append_ne_empty_right _ _ (by decide))
  · exact listSection_empty_iff _ rfl (by decide) (fun x xs => by
      simp only [SectionCreators.createVolunteerSection]
      rw [if_neg (by simp)]
      exact append_ne_empty_right _ _ (by decide))
  · exact listSection_empty_iff _ rfl (by decide) (fun x xs => by
      simp only [SectionCreators.createEducationSection]
      rw [if_neg (by simp)]
      exact append_ne_empty_right _ _ (by decide))

/-- Witness for C2 at concrete inputs. -/
theorem C2_section_omitted_iff_absent_or_empty_witness :
    SectionCreators.createLanguagesSection (some [{ language := some "English" }]) ≠ "" := by
  intro h
  rcases (C2_section_omitted_iff_absent_or_empty.1
    (some [{ language := some "English" }])).mp h with h1 | h2
  · exact Option.noConfusion h1
  · simp at h2

-- ============================================================================
-- CLAIM C3
-- ============================================================================

/-- C3: in every timeline entry the date block emits nothing when both
dates are absent; otherwise it emits the end marker first (a `date` span
holding the literal `Present` when `endDate` is absent, else the escaped
`endDate`) and only then — when `startDate` is present — a line break
followed by the start marker, so the end marker precedes `startDate` in
document order; and the work, project, volunteer and education item rows
all place exactly this block before their details. -/
theorem C3_timeline_end_marker_before_start (startDate endDate : Option String) :
    (jsTruthy startDate = false → jsTruthy endDate = false →
      SectionCreators.timelineBlock startDate endDate = "")
    ∧ (jsTruthy endDate = true →
      SectionCreators.timelineBlock startDate endDate =
        "<div class=\"timeline\">"
        ++ HTMLUtils.createElement "span" "date" (HTMLUtils.safeText endDate) []
        ++ (if jsTruthy startDate then
              " <br> " ++ HTMLUtils.createElement "span" "date" (HTMLUtils.safeText startDate) []
            else "")
        ++ "</div>")
    ∧ (jsTruthy endDate = false → jsTruthy startDate = true →
      SectionCreators.timelineBlock startDate endDate =
        "<div class=\"timeline\">"
        ++ HTMLUtils.createElement "span" "date" "Present" []
        ++ " <br> " ++ HTMLUtils.createElement "span" "date" (HTMLUtils.safeText startDate) []
        ++ "</div>")
    ∧ (∀ e : WorkEntry, SectionCreators.workItem e =
        "<div class=\"timeline-section-item\">"
        ++ SectionCreators.timelineBlock e.startDate e.endDate
        ++ SectionCreators.workItemDetails e)
    ∧ (∀ p : ProjectEntry, SectionCreators.projectItem p =
        "<div class=\"timeline-section-item\">"
        ++ SectionCreators.timelineBlock p.startDate p.endDate
        ++ SectionCreators.projectItemDetails p)
    ∧ (∀ v : VolunteerEntry, SectionCreators.volunteerItem v =
        "<div class=\"timeline-section-item\">"
        ++ SectionCreators.timelineBlock v.startDate v.endDate
        ++ SectionCreators.volunteerItemDetails v)
    ∧ (∀ e : EducationEntry, SectionCreators.educationItem e =
        "<div class=\"timeline-section-item\">"
        ++ SectionCreators.timelineBlock e.startDate e.endDate
        ++ SectionCreators.educationItemDetails e) := by
  refine ⟨?_, ?_, ?_, fun e => rfl, fun p => rfl, fun v => rfl, fun e => rfl⟩
  · intro h1 h2
    simp [SectionCreators.timelineBlock, h1, h2]
  · intro he
    by_cases hs : jsTruthy startDate
    · simp [SectionCreators.timelineBlock, he, hs, strAppend_assoc]
    · simp [SectionCreators.timelineBlock, he, hs, strAppend_assoc]
  · intro he hs
    simp [SectionCreators.timelineBlock, he, hs, strAppend_assoc]

/-- Witness for C3: a work-style entry with `startDate` and no `endDate`
renders `Present` first, then the line break, then the start date. -/
theorem C3_timeline_end_marker_before_start_witness :
    SectionCreators.timelineBlock (some "2020-01") none =
      "<div class=\"timeline\"><span class=\"date\">Present</span> <br> <span class=\"date\">2020-01</span></div>"
    ∧ SectionCreators.timelineBlock none none = "" := by
  constructor
  · exact ((C3_timeline_end_marker_before_start (some "2020-01") none).2.2.1
      (by decide) (by decide)).trans (by decide)
  · exact (C3_timeline_end_marker_before_start none none).1 (by decide) (by decide)


-- ============================================================================
-- EXCEPT REDUCTION LEMMAS
-- ============================================================================

theorem except_pure_eq {ε α : Type} (a : α) : (pure a : Except ε α) = Except.ok a := rfl

theorem except_bind_ok {ε α β : Type} (a : α) (f : α → Except ε β) :
    (Except.ok a >>= f : Except ε β) = f a := rfl

theorem except_map_ok {ε α β : Type} (f : α → β) (a : α) :
    (f <$> Except.ok a : Except ε β) = Except.ok (f a) := rfl

theorem except_bind_error {ε α β : Type} (e : ε) (f : α → Except ε β) :
    (Except.error e >>= f : Except ε β) = Except.error e := rfl

-- ============================================================================
-- CLAIM C4
-- ============================================================================

theorem referenceItemE_ok (ref : ReferenceEntry) :
    referenceItemE ref = Except.ok (SectionCreators.referenceItem ref) := by
  by_cases ht : jsTruthy ref.reference
  · by_cases hp : parsesAsURL (ref.reference.getD "")
    · simp [referenceItemE, SectionCreators.referenceItem, tryCatchE, newURL, ht, hp,
        except_pure_eq, except_bind_ok, except_bind_error]
    · simp [referenceItemE, SectionCreators.referenceItem, tryCatchE, newURL, ht, hp,
        except_pure_eq, except_bind_ok, except_bind_error]
  · simp [referenceItemE, SectionCreators.referenceItem, ht, except_pure_eq, except_bind_ok]

/-- C4: a reference entry with a non-empty reference string renders the
reference inside an anchor (with the reference as `href` and the
scheme-stripped escaped text as content) exactly when the string parses as
a URL; a non-parsing string renders as a plain escaped paragraph; and the
exception-explicit reference item always succeeds (the parse failure never
propagates). -/
theorem C4_reference_anchor_iff_parses (ref : ReferenceEntry) (r : String)
    (href : ref.reference = some r) (hne : r ≠ "") :
    (parsesAsURL r = true →
      SectionCreators.referenceItem ref =
        "<div class=\"section-item\">"
        ++ (if jsTruthy ref.name then
              HTMLUtils.createElement "h3" "" (HTMLUtils.safeText ref.name) []
            else "")
        ++ HTMLUtils.createElement "a" "reference-link"
            (HTMLUtils.escapeHtml (ContentUtils.stripScheme r)) [("href", r)]
        ++ "</div>")
    ∧ (parsesAsURL r = false →
      SectionCreators.referenceItem ref =
        "<div class=\"section-item\">"
        ++ (if jsTruthy ref.name then
              HTMLUtils.createElement "h3" "" (HTMLUtils.safeText ref.name) []
            else "")
        ++ HTMLUtils.createElement "p" "" (HTMLUtils.escapeHtml r) []
        ++ "</div>")
    ∧ referenceItemE ref = Except.ok (SectionCreators.referenceItem ref) := by
  have ht : jsTruthy (some r) = true := jsTruthyS_of_ne r hne
  refine ⟨?_, ?_, referenceItemE_ok ref⟩
  · intro hp
    simp [SectionCreators.referenceItem, href, ht, hp, safeText_some_eq, strAppend_assoc]
  · intro hp
    simp [SectionCreators.referenceItem, href, ht, hp, safeText_some_eq, strAppend_assoc]

/-- Witness for C4: a non-URL string falls back to a plain paragraph, a URL
renders as an anchor. -/
theorem C4_reference_anchor_iff_parses_witness :
    SectionCreators.referenceItem { name := some "R", reference := some "not a url" }
      = "<div class=\"section-item\"><h3>R</h3><p>not a url</p></div>"
    ∧ SectionCreators.referenceItem { name := some "R", reference := some "https://example.com/x" }
      = "<div class=\"section-item\"><h3>R</h3><a class=\"reference-link\" href=\"https://example.com/x\">example.com/x</a></div>" := by
  constructor
  · exact ((C4_reference_anchor_iff_parses
      { name := some "R", reference := some "not a url" } "not a url" rfl
      (by decide)).2.1 (by decide)).trans (by decide)
  · exact ((C4_reference_anchor_iff_parses
      { name := some "R", reference := some "https://example.com/x" } "https://example.com/x" rfl
      (by decide)).1 (by decide)).trans (by decide)

-- ============================================================================
-- CLAIM C5
-- ============================================================================

theorem foldlM_ok_form (refs : List ReferenceEntry) (s : String) :
    (refs.foldlM (fun acc ref => Except.ok (acc ++ SectionCreators.referenceItem ref)) s :
        Except String String)
      = Except.ok (refs.foldl (fun acc ref => acc ++ SectionCreators.referenceItem ref) s) := by
  induction refs generalizing s with
  | nil => rfl
  | cons a as ih =>
    simp only [List.foldlM_cons, List.foldl_cons, except_bind_ok]
    exact ih _

theorem foldlM_referenceItems (refs : List ReferenceEntry) (s : String) :
    (refs.foldlM (fun acc ref => do
        let item ← referenceItemE ref
        pure (acc ++ item)) s : Except String String)
      = Except.ok (refs.foldl (fun acc ref => acc ++ SectionCreators.referenceItem ref) s) := by
  have hfun : (fun (acc : String) (ref : ReferenceEntry) => do
      let item ← referenceItemE ref
      pure (acc ++ item) : String → ReferenceEntry → Except String String)
      = fun acc ref => Except.ok (acc ++ SectionCreators.referenceItem ref) := by
    funext acc ref
    rw [referenceItemE_ok]
    rfl
  rw [hfun, foldlM_ok_form]

theorem createReferencesSectionE_ok (references : Option (List ReferenceEntry)) :
    createReferencesSectionE references
      = Except.ok (SectionCreators.createReferencesSection references) := by
  match references with
  | none => rfl
  | some refs =>
    by_cases h : refs.length = 0
    · simp [createReferencesSectionE, SectionCreators.createReferencesSection, h,
        except_pure_eq]
    · simp only [createReferencesSectionE, SectionCreators.createReferencesSection, h, if_false]
      rw [foldlM_referenceItems]
      rfl

theorem createLeftColumnE_ok (data : JSONResumeSchema) :
    createLeftColumnE data = Except.ok (createLeftColumn data) := by
  by_cases h : data.references.isSome
  · simp [createLeftColumnE, createLeftColumn, h, createReferencesSectionE_ok,
      except_pure_eq, except_bind_ok]
  · simp [createLeftColumnE, createLeftColumn, h, except_pure_eq, except_bind_ok]

/-- C5: for every resume record — any subset of the optional fields present
at every nesting level — the exception-explicit renderer returns
`Except.ok` of the rendered string and never an error: the one anticipated
exception (reference-URL parsing) is caught locally and absent fields only
suppress their fragments. -/
theorem C5_render_never_raises (data : JSONResumeSchema) :
    renderE data = Except.ok (render data) := by
  simp [renderE, render, createLeftColumnE_ok, except_pure_eq, except_bind_ok]

-- ============================================================================
-- CLAIM C6
-- ============================================================================

/-- C6: the contact block is the wrapper around the email, phone and url
items followed by one contribution per profile in order; a profile
contributes a contact item exactly when both `network` and `url` are truthy
(others are silently skipped); the contributing item builds its icon class
from the lower-cased escaped network name, puts the original URL in the
`href` attribute slot and displays the scheme-stripped, HTML-escaped URL as
the link text. -/
theorem C6_contact_info_items (email phone url : Option String)
    (profiles : List ProfileEntry) :
    (ContentUtils.addContactInfo email phone url profiles =
      "<div class=\"contact-info\">"
      ++ (if jsTruthy email then
            HTMLUtils.createElement "span" "contact-item"
              ("<i class=\"fas fa-envelope\"></i> "
                ++ HTMLUtils.createElement "a" "" (HTMLUtils.safeText email)
                    [("href", "mailto:" ++ email.getD "")]) []
          else "")
      ++ (if jsTruthy phone then
            HTMLUtils.createElement "span" "contact-item"
              ("<i class=\"fas fa-phone\"></i> "
                ++ HTMLUtils.createElement "a" "" (HTMLUtils.safeText phone)
                    [("href", "tel:" ++ phone.getD "")]) []
          else "")
      ++ (if jsTruthy url then
            HTMLUtils.createElement "span" "contact-item"
              ("<i class=\"fas fa-globe\"></i> "
                ++ HTMLUtils.createElement "a" ""
                    (HTMLUtils.escapeHtml (ContentUtils.stripScheme (url.getD "")))
                    [("href", url.getD "")]) []
          else "")
      ++ String.join (profiles.map ContentUtils.contactProfileItem)
      ++ "</div>")
    ∧ (∀ p : ProfileEntry, jsTruthy p.network = false ∨ jsTruthy p.url = false →
        ContentUtils.contactProfileItem p = "")
    ∧ (∀ p : ProfileEntry, (jsTruthy p.network && jsTruthy p.url) = true →
        ContentUtils.contactProfileItem p =
          HTMLUtils.createElement "span" "contact-item"
            ("<i class=\"fa-brands fa-"
              ++ HTMLUtils.escapeHtml (ContentUtils.toLowerStr (p.network.getD ""))
              ++ "\"></i> "
              ++ HTMLUtils.createElement "a" ""
                  (HTMLUtils.escapeHtml (ContentUtils.stripScheme (p.url.getD "")))
                  [("href", p.url.getD "")]) []) := by
  refine ⟨?_, ?_, ?_⟩
  · by_cases he : jsTruthy email
      <;> by_cases hp : jsTruthy phone
      <;> by_cases hu : jsTruthy url
      <;> simp only [ContentUtils.addContactInfo, he, hp, hu, if_true, if_false,
            foldl_append_join, safeText_some_eq]
      <;> simp [strAppend_assoc, str_append_empty, str_empty_append]
  · intro p hp
    rcases hp with h | h <;> simp [ContentUtils.contactProfileItem, h]
  · intro p hp
    simp [ContentUtils.contactProfileItem, hp, safeText_some_eq]

/-- Witness for C6 (end-to-end scenario C): a GitHub profile renders the
lower-cased brand marker and the stripped display text with the original
`href`; a profile with a missing url is skipped. -/
theorem C6_contact_info_items_witness :
    ContentUtils.addContactInfo none none none
      [{ network := some "GitHub", url := some "https://github.com/x" }]
      = "<div class=\"contact-info\"><span class=\"contact-item\"><i class=\"fa-brands fa-github\"></i> <a href=\"https://github.com/x\">github.com/x</a></span></div>"
    ∧ ContentUtils.contactProfileItem { network := some "GitHub", url := none } = "" := by
  have h := C6_contact_info_items none none none
    [{ network := some "GitHub", url := some "https://github.com/x" }]
  constructor
  · exact h.1.trans (by decide)
  · exact h.2.1 { network := some "GitHub", url := none } (Or.inr rfl)

-- ============================================================================
-- CLAIM C7
-- ============================================================================

/-- C7 counterexample: a basics record with no location fields and no
contact fields DOES produce blank location and contact elements — the
empty `location` and `contact-info` wrapper divs are always emitted. -/
theorem C7_counterexample_blank_wrappers :
    containsSub "<div class=\"location\"></div>"
      (SectionCreators.createBasicsSection (some ({} : Basics))) = true
    ∧ containsSub "<div class=\"contact-info\"></div>"
      (SectionCreators.createBasicsSection (some ({} : Basics))) = true
    ∧ SectionCreators.createBasicsSection (some ({} : Basics)) =
        "<div class=\"section\"><div class=\"location\"></div><div class=\"contact-info\"></div></div>" := by
  decide

/-- C7 (amended): absent optional fields contribute no placeholder element,
with two exceptions: a present `startDate` with absent `endDate` renders
the literal `Present` end marker, and the basics section always emits the
(possibly empty) `location` and `contact-info` wrapper divs whenever
`basics` is present. -/
theorem C7_absence_is_omission_with_wrappers :
    SectionCreators.createBasicsSection none = ""
    ∧ ContentUtils.addLocation {} = "<div class=\"location\"></div>"
    ∧ ContentUtils.addContactInfo none none none [] = "<div class=\"contact-info\"></div>"
    ∧ SectionCreators.createBasicsSection (some ({} : Basics)) =
        "<div class=\"section\">" ++ ContentUtils.addLocation {}
        ++ ContentUtils.addContactInfo none none none [] ++ "</div>"
    ∧ (∀ sd : Option String, jsTruthy sd = true →
        SectionCreators.timelineBlock sd none =
          "<div class=\"timeline\">" ++ HTMLUtils.createElement "span" "date" "Present" []
          ++ " <br> " ++ HTMLUtils.createElement "span" "date" (HTMLUtils.safeText sd) []
          ++ "</div>")
    ∧ SectionCreators.timelineBlock none none = "" := by
  refine ⟨rfl, by decide, by decide, by decide, ?_, rfl⟩
  intro sd h
  have hn : jsTruthy none = false := rfl
  simp [SectionCreators.timelineBlock, h, hn, strAppend_assoc]

/-- Witness for C7 at a concrete start date. -/
theorem C7_absence_is_omission_with_wrappers_witness :
    SectionCreators.timelineBlock (some "2019-05") none =
      "<div class=\"timeline\"><span class=\"date\">Present</span> <br> <span class=\"date\">2019-05</span></div>" := by
  exact (C7_absence_is_omission_with_wrappers.2.2.2.2.1 (some "2019-05") (by decide)).trans
    (by decide)

-- ============================================================================
-- CLAIM C8
-- ============================================================================

/-- C8 counterexample: an empty-string value is NOT rendered the same way
as any other present string — the truthiness guards treat `""` exactly like
an absent field, so the element (here the `resume-name` heading) is not
emitted at all, while a non-empty string produces it. -/
theorem C8_counterexample_empty_string_suppressed :
    SectionCreators.createBasicsSection (some { name := some "" })
      = SectionCreators.createBasicsSection (some { name := none })
    ∧ SectionCreators.createBasicsSection (some { name := some "X" })
      ≠ SectionCreators.createBasicsSection (some { name := none })
    ∧ containsSub "resume-name"
        (SectionCreators.createBasicsSection (some { name := some "" })) = false
    ∧ containsSub "resume-name"
        (SectionCreators.createBasicsSection (some { name := some "X" })) = true := by
  decide

/-- C8 (amended): every non-empty string value — however semantically
meaningless (an invalid date string, very long text) — is passed through
unchanged as escaped text at its field's position with no semantic
validation; an empty string, however, is treated like an absent field by
the truthiness guards and suppresses its element. -/
theorem C8_meaningless_text_passthrough (s : String) (h : s ≠ "") :
    SectionCreators.createBasicsSection (some { name := some s }) =
      "<div class=\"section\">"
      ++ HTMLUtils.createElement "h1" "resume-name" (HTMLUtils.escapeHtml s) []
      ++ "<div class=\"location\"></div>" ++ "<div class=\"contact-info\"></div>" ++ "</div>"
    ∧ SectionCreators.timelineBlock none (some s) =
      "<div class=\"timeline\">"
      ++ HTMLUtils.createElement "span" "date" (HTMLUtils.escapeHtml s) [] ++ "</div>"
    ∧ HTMLUtils.safeText (some s) = HTMLUtils.escapeHtml s
    ∧ SectionCreators.createBasicsSection (some { name := some "" })
      = SectionCreators.createBasicsSection (some { name := none }) := by
  have ht : jsTruthyS s = true := jsTruthyS_of_ne s h
  refine ⟨?_, ?_, safeText_some_eq s, by decide⟩
  · have hloc : ContentUtils.addLocation {} = "<div class=\"location\"></div>" := by decide
    have hcon : ContentUtils.addContactInfo none none none [] = "<div class=\"contact-info\"></div>" := by
      decide
    simp only [SectionCreators.createBasicsSection]
    simp [jsTruthy, ht, safeText_some_eq, hloc, hcon, HTMLUtils.createSection,
      strAppend_assoc]
  · simp [SectionCreators.timelineBlock, jsTruthy, ht, safeText_some_eq, strAppend_assoc]

/-- Witness for C8 at a syntactically valid but meaningless date string. -/
theorem C8_meaningless_text_passthrough_witness :
    SectionCreators.timelineBlock none (some "99/99/9999") =
      "<div class=\"timeline\"><span class=\"date\">99/99/9999</span></div>" := by
  exact ((C8_meaningless_text_passthrough "99/99/9999" (by decide)).2.1).trans (by decide)

-- ============================================================================
-- CLAIM C9
-- ============================================================================

/-- C9: `render` is a pure function of the input record alone — two
invocations on equal records yield byte-identical output strings (no
timestamp, random identifier or external state occurs anywhere in the
embedding, and the input record is immutable by construction). -/
theorem C9_render_deterministic (d₁ d₂ : JSONResumeSchema) (h : d₁ = d₂) :
    render d₁ = render d₂ ∧ (render d₁).data = (render d₂).data := by
  subst h
  exact ⟨rfl, rfl⟩

/-- Witness for C9 at a concrete record. -/
theorem C9_render_deterministic_witness :
    render { basics := some { name := some "A" } } = render { basics := some { name := some "A" } } :=
  (C9_render_deterministic { basics := some { name := some "A" } }
    { basics := some { name := some "A" } } rfl).1

-- ============================================================================
-- CLAIM C10
-- ============================================================================

/-- C10: the element builder always emits an explicit closing tag
`</tag>` — also for HTML void elements — so the basics profile image is
emitted as `<img ...></img>` rather than self-closing; and when the
`className` argument is empty no `class` attribute appears in the opening
tag at all (the image's `class` comes from the attribute map instead). -/
theorem C10_element_builder_closing_tag :
    (∀ (tagName className textContent : String) (attributes : List (String × String)),
      HTMLUtils.createElement tagName className textContent attributes =
        "<" ++ tagName
        ++ (if jsTruthyS className then " class=\"" ++ HTMLUtils.escapeHtml className ++ "\"" else "")
        ++ String.join (attributes.map
            (fun kv => " " ++ HTMLUtils.escapeHtml kv.1 ++ "=\"" ++ HTMLUtils.escapeHtml kv.2 ++ "\""))
        ++ ">" ++ textContent ++ "</" ++ tagName ++ ">")
    ∧ (∀ (tagName textContent : String) (attributes : List (String × String)),
      HTMLUtils.createElement tagName "" textContent attributes =
        "<" ++ tagName
        ++ String.join (attributes.map
            (fun kv => " " ++ HTMLUtils.escapeHtml kv.1 ++ "=\"" ++ HTMLUtils.escapeHtml kv.2 ++ "\""))
        ++ ">" ++ textContent ++ "</" ++ tagName ++ ">")
    ∧ (∀ u : String, u ≠ "" →
      SectionCreators.createBasicsSection (some { image := some u }) =
        "<div class=\"section\">"
        ++ HTMLUtils.createElement "img" "" ""
            [("class", "profile-picture"), ("src", u), ("alt", "Profile Picture")]
        ++ "<div class=\"location\"></div>" ++ "<div class=\"contact-info\"></div>" ++ "</div>") := by
  refine ⟨createElement_closed, ?_, ?_⟩
  · intro tagName textContent attributes
    have h := createElement_closed tagName "" textContent attributes
    simpa [jsTruthyS, str_append_empty, str_empty_append, strAppend_assoc] using h
  · intro u hu
    have ht : jsTruthyS u = true := jsTruthyS_of_ne u hu
    have hloc : ContentUtils.addLocation {} = "<div class=\"location\"></div>" := by decide
    have hcon : ContentUtils.addContactInfo none none none [] = "<div class=\"contact-info\"></div>" := by
      decide
    simp only [SectionCreators.createBasicsSection]
    simp [jsTruthy, ht, hloc, hcon, HTMLUtils.createSection, strAppend_assoc]

/-- Witness for C10: the profile image element carries an explicit closing
tag and its opening tag has no builder-inserted class attribute. -/
theorem C10_element_builder_closing_tag_witness :
    HTMLUtils.createElement "img" "" ""
      [("class", "profile-picture"), ("src", "pic.png"), ("alt", "Profile Picture")]
      = "<img class=\"profile-picture\" src=\"pic.png\" alt=\"Profile Picture\"></img>"
    ∧ SectionCreators.createBasicsSection (some { image := some "pic.png" })
      = "<div class=\"section\"><img class=\"profile-picture\" src=\"pic.png\" alt=\"Profile Picture\"></img><div class=\"location\"></div><div class=\"contact-info\"></div></div>" := by
  constructor
  · exact (C10_element_builder_closing_tag.2.1 "img" ""
      [("class", "profile-picture"), ("src", "pic.png"), ("alt", "Profile Picture")]).trans
      (by decide)
  · exact (C10_element_builder_closing_tag.2.2 "pic.png" (by decide)).trans (by decide)
